import Mathlib

/-!
Shallow embedding of the local-ai-agent-for-bioinformatics repository
(a minimal RAG assistant: document loading, chunking, embedding, a
persistent vector store, and a retrieval-augmented agent), together with
theorems settling the behavioural claims about it.

External library calls (PyPDFLoader, TextLoader, Ollama embeddings/LLM,
Chroma) are modelled as explicit oracle parameters (`Except`-valued where
the Python call can raise); filesystem state is passed explicitly.
-/

/-! ### Configuration constants (config.py) -/

/-- Size of the text chunks, in characters (config.py `CHUNK_SIZE`). -/
def CHUNK_SIZE : Nat := 1000

/-- Overlap between text chunks, in characters (config.py `CHUNK_OVERLAP`). -/
def CHUNK_OVERLAP : Nat := 200

/-- Maximum number of chunks sent as context (config.py `MAX_CONTEXT_CHUNKS`). -/
def MAX_CONTEXT_CHUNKS : Nat := 5

/-- The two context-usage policies for the RAG agent (config.py `CONTEXT_MODE`). -/
inductive ContextMode where
  | strict
  | regular
deriving DecidableEq

/-- Configured context mode (config.py sets `CONTEXT_MODE = "regular"`). -/
def CONTEXT_MODE : ContextMode := ContextMode.regular

/-! ### Data model -/

/-- A LangChain document: page content plus source metadata
(langchain_core.documents.Document as used by document_processor.py). -/
structure Doc where
  pageContent : String
  source : String
deriving DecidableEq

/-! ### Document loader (src/utils/document_processor.py,
`DocumentProcessor.load_documents_from_directory`) -/

/-- Python `str.endswith(suffix)`: the suffix test on the character
sequence of the string. -/
def pyEndsWith (s suffix : String) : Bool :=
  suffix.toList.isSuffixOf s.toList

/-- True when the file name matches the plain-text-like branch
`file_name.endswith((".txt", ".md", ".py", ".R", ".sh"))`. -/
def supportedTextExt (name : String) : Bool :=
  pyEndsWith name ".txt" || pyEndsWith name ".md" || pyEndsWith name ".py" ||
    pyEndsWith name ".R" || pyEndsWith name ".sh"

/-- True when the loader has a branch that loads this file name:
the PDF branch or the text/code branch. -/
def supportedExt (name : String) : Bool :=
  pyEndsWith name ".pdf" || supportedTextExt name

/-- Outcome of one guarded loader call (`try: loader.load() ... except`):
on success the loaded documents and a success log line; on a raised
exception no documents and an error log line (the exception is swallowed). -/
def loadOutcome (okLabel errLabel : String) (name : String)
    (res : Except String (List Doc)) : List Doc × List String :=
  match res with
  | Except.ok ds => (ds, [okLabel ++ name])
  | Except.error e => ([], [errLabel ++ name ++ ": " ++ e])

/-- Processing of a single file inside the walk loop of
`load_documents_from_directory`: PDF branch, text/code branch, or the
skip branch for unsupported extensions. -/
def processFile (pdfLoad textLoad : String → Except String (List Doc))
    (name : String) : List Doc × List String :=
  if pyEndsWith name ".pdf" then
    loadOutcome "Loaded PDF: " "Error loading PDF " name (pdfLoad name)
  else if supportedTextExt name then
    loadOutcome "Loaded Text/Code: " "Error loading text/code file " name
      (textLoad name)
  else
    ([], ["Skipping unsupported file type: " ++ name])

/-- `DocumentProcessor.load_documents_from_directory`: `none` models a
path that is not a directory (error message, empty result); otherwise the
recursive walk yields the given file names in order, and each is processed
by the branch dispatch above. Returns (loaded documents, log lines). -/
def load_documents_from_directory
    (pdfLoad textLoad : String → Except String (List Doc))
    (dir : Option (List String)) : List Doc × List String :=
  match dir with
  | none => ([], ["Error: Directory not found"])
  | some files =>
      (files.flatMap (fun n => (processFile pdfLoad textLoad n).1),
       files.flatMap (fun n => (processFile pdfLoad textLoad n).2))

/-! ### Chunker (src/utils/document_processor.py, `DocumentProcessor.split_documents`)

Modelled from the spec: the splitting itself delegates to
langchain's `RecursiveCharacterTextSplitter(chunk_size, chunk_overlap,
length_function=len, is_separator_regex=False)`, whose implementation is
third-party code not present in this repository. The spec describes the
chunker as producing "fixed-size overlapping character windows" (spec
sections 2 and 3), which is what is embedded here: windows of at most
`chunk_size` characters whose consecutive starts advance by
`chunk_size - chunk_overlap`. -/

/-- Modelled from the spec: the sliding character windows of a text,
with an explicit recursion bound (the bound is consumed only when the
text shrinks, so `slideChunks` below never exhausts it). Each window
holds at most `c` characters; the next window starts `step` characters
later. -/
def slideChunksAux (c step : Nat) : Nat → List Char → List (List Char)
  | 0, s => [s]
  | fuel + 1, s =>
      if s.length ≤ c ∨ step = 0 then [s]
      else s.take c :: slideChunksAux c step fuel (s.drop step)

/-- Modelled from the spec: the sliding character windows of a text.
Each window holds at most `c` characters; the next window starts `step`
characters later. A text that fits in one window yields that single
window (a degenerate `step = 0` also stops, keeping the function total). -/
def slideChunks (c step : Nat) (s : List Char) : List (List Char) :=
  slideChunksAux c step s.length s

/-- Modelled from the spec: splitting one document into chunk documents;
every chunk keeps the source metadata of the document it came from. -/
def splitDoc (c o : Nat) (d : Doc) : List Doc :=
  (slideChunks c (c - o) d.pageContent.toList).map
    (fun cs => { pageContent := String.mk cs, source := d.source })

/-- `DocumentProcessor.split_documents`: the early return on an empty
document list, then per-document splitting (spec-modelled windows). -/
def split_documents (c o : Nat) (documents : List Doc) : List Doc :=
  if documents.isEmpty then []
  else documents.flatMap (splitDoc c o)

/-- Combined character length of a list of documents. -/
def totalChars (documents : List Doc) : Nat :=
  (documents.map (fun d => d.pageContent.toList.length)).sum

/-! ### Embedding handler (src/core/embedding_handler.py) -/

/-- `EmbeddingHandler.create_embedding`: `embed_query` is the Ollama
client call (the oracle); a raised exception is caught and converted to
the empty list. -/
def create_embedding (embedQuery : String → Except String (List Rat))
    (text : String) : List Rat :=
  match embedQuery text with
  | Except.ok e => e
  | Except.error _ => []

/-- `EmbeddingHandler.create_embeddings`: `embed_documents` is the batch
Ollama client call (the oracle); a raised exception is caught and
converted to one empty list per input text. -/
def create_embeddings
    (embedDocuments : List String → Except String (List (List Rat)))
    (texts : List String) : List (List Rat) :=
  match embedDocuments texts with
  | Except.ok es => es
  | Except.error _ => texts.map (fun _ => [])

/-! ### LLM handler (src/core/llm_handler.py) -/

/-- A chat message, as assembled by `LLMHandler.generate_response`
(SystemMessage / HumanMessage). -/
inductive ChatMessage where
  | system (content : String)
  | human (content : String)
deriving DecidableEq

/-- The message list built by `generate_response`: the optional system
message first, then the human message holding the prompt. -/
def buildMessages (prompt : String) (systemMessage : Option String) :
    List ChatMessage :=
  (match systemMessage with
   | some s => [ChatMessage.system s]
   | none => []) ++ [ChatMessage.human prompt]

/-- `LLMHandler.generate_response`: `invoke` is the Ollama chat call (the
oracle); a raised exception is caught and converted to the fixed error
string. -/
def generate_response (invoke : List ChatMessage → Except String String)
    (prompt : String) (systemMessage : Option String) : String :=
  match invoke (buildMessages prompt systemMessage) with
  | Except.ok r => r
  | Except.error _ => "An error occurred while generating the response."

/-! ### Vector database (src/knowledge_base/vector_database.py) -/

/-- The contents of a Chroma collection: the stored (embedded) documents,
in insertion order. -/
structure Store where
  records : List Doc
deriving DecidableEq

/-- The state of a `VectorDatabase` wrapper: the in-memory handle
(`self.db`, `none` until initialised) and the contents persisted at the
persist directory (`none` when the directory is missing or empty). -/
structure VectorDatabase where
  db : Option Store
  persisted : Option Store
deriving DecidableEq

/-- `Chroma.from_documents(documents, persist_directory)`: opens the
collection at the persist directory (adding to whatever is already
persisted there) and inserts the documents. -/
def chromaFromDocuments (persisted : Option Store) (docs : List Doc) :
    Store :=
  { records := (persisted.map Store.records).getD [] ++ docs }

/-- `VectorDatabase.initialize_db`: with a truthy (non-empty) document
list it creates the collection from the documents and persists it;
otherwise it loads the existing collection when the persist directory is
non-empty, and leaves `db = None` when nothing is persisted. -/
def initialize_db (documents : Option (List Doc))
    (vdb : VectorDatabase) : VectorDatabase :=
  if (documents.getD []).isEmpty = false then
    let newStore := chromaFromDocuments vdb.persisted (documents.getD [])
    { db := some newStore, persisted := some newStore }
  else
    match vdb.persisted with
    | some st => { vdb with db := some st }
    | none => { vdb with db := none }

/-- `VectorDatabase.add_documents`: an empty list is rejected with a log
line only; an uninitialised database delegates to `initialize_db`;
otherwise the documents are appended and the collection persisted. -/
def add_documents (documents : List Doc) (vdb : VectorDatabase) :
    VectorDatabase :=
  if documents.isEmpty then vdb
  else
    match vdb.db with
    | none => initialize_db (some documents) vdb
    | some st =>
        let st' : Store := { records := st.records ++ documents }
        { db := some st', persisted := some st' }

/-- `VectorDatabase.similarity_search`: returns the empty list when the
database was never initialised, and otherwise delegates to the Chroma
search (the oracle `searchFn`, a function of the collection contents, the
query and `k`). -/
def similarity_search (searchFn : Store → String → Nat → List Doc)
    (vdb : VectorDatabase) (query : String) (k : Nat) : List Doc :=
  match vdb.db with
  | none => []
  | some st => searchFn st query k

/-! ### Build pipeline (src/knowledge_base/build_knowledge_base.py) -/

/-- A filesystem effect of the build script at the vector-store path
`CHROMA_DB_PATH`: `shutil.rmtree`, `os.makedirs`, or the creation and
persisting of the new Chroma collection from the chunks. -/
inductive FSEffect where
  | rmtreeStore
  | makedirsStore
  | writeStore (chunks : List Doc)
deriving DecidableEq

/-- The report a build run ends with: the early `No documents found`
return, the early `No chunks generated` return, or the success /
failure prints after `initialize_db`. -/
inductive BuildReport where
  | noDocuments
  | noChunks
  | success
  | failure
deriving DecidableEq

/-- `build_knowledge_base`: load documents from the data directory,
return early (touching nothing) when none were loaded or no chunks were
produced; otherwise delete any existing store directory, recreate it, and
create the new collection from the chunks (`initialize_db` with a
non-empty list always yields a collection, so the run reports success).
Returns the report and the ordered filesystem effects at the store path. -/
def build_knowledge_base
    (pdfLoad textLoad : String → Except String (List Doc))
    (dataDir : Option (List String)) (storeExists : Bool) :
    BuildReport × List FSEffect :=
  let documents := (load_documents_from_directory pdfLoad textLoad dataDir).1
  if documents.isEmpty then (BuildReport.noDocuments, [])
  else
    let chunks := split_documents CHUNK_SIZE CHUNK_OVERLAP documents
    if chunks.isEmpty then (BuildReport.noChunks, [])
    else
      (BuildReport.success,
        (if storeExists then [FSEffect.rmtreeStore] else []) ++
          [FSEffect.makedirsStore, FSEffect.writeStore chunks])

/-! ### CLI startup (main.py) -/

/-- The warning block `ensure_knowledge_base_exists` prints when the
ChromaDB directory is missing or empty. -/
def kbWarningLines : List String :=
  ["WARNING: Knowledge Base (ChromaDB) not found or is empty!",
   "Please build it first by running:",
   "  python3 -m src.knowledge_base.build_knowledge_base",
   "Ensure you have documents in your data/ directory."]

/-- `ensure_knowledge_base_exists`: `chromaDir = none` models a missing
`CHROMA_DB_PATH`, `some listing` its directory listing. Returns whether
the knowledge base is usable together with the printed warning lines. -/
def ensure_knowledge_base_exists (chromaDir : Option (List String)) :
    Bool × List String :=
  match chromaDir with
  | none => (false, kbWarningLines)
  | some listing =>
      if listing.isEmpty then (false, kbWarningLines) else (true, [])

/-- What `main` has done by the time it reaches (or skips) the
interactive loop: the lines printed, the exit code passed to `sys.exit`
(`none` when the process did not exit during startup), and whether the
`BioRAGAgent` was constructed. -/
structure StartupOutcome where
  printed : List String
  exitCode : Option Nat
  agentConstructed : Bool
deriving DecidableEq

/-- The startup phase of `main`: check the knowledge base, exiting with
status 1 before any agent construction when it is missing or empty;
otherwise construct the agent (the oracle `agentInit` models the
`BioRAGAgent()` call, which can raise), exiting with status 1 on
failure. -/
def mainStartup (chromaDir : Option (List String))
    (agentInit : Except String Unit) : StartupOutcome :=
  let check := ensure_knowledge_base_exists chromaDir
  if check.1 = false then
    { printed := check.2, exitCode := some 1, agentConstructed := false }
  else
    match agentInit with
    | Except.error e =>
        { printed := check.2 ++ ["Error initializing agent: " ++ e],
          exitCode := some 1, agentConstructed := false }
    | Except.ok _ =>
        { printed := check.2, exitCode := none, agentConstructed := true }

/-! ### Orchestrating agent

Modelled from the spec: `src/agents/bio_rag_agent.py` (the
`BioRAGAgent` imported by main.py and app.py) is not present in the
repository snapshot; only its callers are. Spec section 4.1 gives the
algorithm: embed the question, retrieve the top-k chunks, assemble a
prompt from the chunk texts, their sources and the question, select the
instruction according to the context policy, and return the generation
model's output verbatim. -/

/-- Modelled from the spec: the strict-policy instruction — answer based
ONLY on provided context, and state not knowing when it is not found
(config.py documents this mode). -/
def strictInstruction : String :=
  "Answer based ONLY on the provided context. If the answer is not found in the context, state that you do not know."

/-- Modelled from the spec: the regular-policy instruction — prioritise
provided context, but fall back on general knowledge when it is
insufficient. -/
def regularInstruction : String :=
  "Prioritize the provided context, but if it is insufficient, use your general knowledge."

/-- Modelled from the spec: the assembled prompt, containing the
retrieved chunk texts, their source identifiers, and the question. -/
def assemblePrompt (chunks : List Doc) (question : String) : String :=
  String.intercalate "\n"
    (chunks.map (fun d => "[" ++ d.source ++ "] " ++ d.pageContent)) ++
    "\nQuestion: " ++ question

/-- Modelled from the spec: `BioRAGAgent`'s `answer(question)` — retrieve
context for the question, assemble the prompt, pick the policy
instruction, and return the generation model's output verbatim.
`generate` (prompt, system instruction) is the LLM oracle; `retrieve` is
the top-k retrieval over the store. -/
def agentAnswer (generate : String → Option String → String)
    (retrieve : String → List Doc) (mode : ContextMode)
    (question : String) : String :=
  let chunks := retrieve question
  let instruction :=
    match mode with
    | ContextMode.strict => strictInstruction
    | ContextMode.regular => regularInstruction
  generate (assemblePrompt chunks question) (some instruction)

/-- A generation oracle complies with the strict instruction when, for
any context that does not support answering the question, the response it
gives to the strictly-instructed prompt indicates inability to answer
(rather than fabricating an answer). `supports ctx q` reads: some chunk
of `ctx` supports answering `q`. -/
def StrictCompliant (generate : String → Option String → String)
    (supports : List Doc → String → Prop)
    (indicatesInability : String → Prop) : Prop :=
  ∀ ctx q, ¬ supports ctx q →
    indicatesInability (generate (assemblePrompt ctx q) (some strictInstruction))

/-! ### Helper lemmas -/

/-- A file with an unsupported extension takes the skip branch: no
documents, exactly the skip notice, no error. -/
theorem processFile_unsupported
    (pdfLoad textLoad : String → Except String (List Doc)) (name : String)
    (h : supportedExt name = false) :
    processFile pdfLoad textLoad name =
      ([], ["Skipping unsupported file type: " ++ name]) := by
  have h' : pyEndsWith name ".pdf" = false ∧ supportedTextExt name = false := by
    simpa [supportedExt, Bool.or_eq_false_iff] using h
  simp [processFile, h'.1, h'.2]

/-- A directory whose files all have unsupported extensions loads no
documents. -/
theorem load_all_unsupported
    (pdfLoad textLoad : String → Except String (List Doc))
    (files : List String)
    (h : ∀ name ∈ files, supportedExt name = false) :
    (load_documents_from_directory pdfLoad textLoad (some files)).1 = [] := by
  simp only [load_documents_from_directory]
  induction files with
  | nil => simp
  | cons a l ih =>
      simp only [List.flatMap_cons]
      rw [processFile_unsupported pdfLoad textLoad a (h a (by simp))]
      simpa using ih (fun n hn => h n (by simp [hn]))

/-- `slideChunksAux` never produces the empty chunk list. -/
theorem slideChunksAux_ne_nil (c step fuel : Nat) (s : List Char) :
    slideChunksAux c step fuel s ≠ [] := by
  cases fuel with
  | zero => simp [slideChunksAux]
  | succ n =>
      simp only [slideChunksAux]
      split <;> simp

/-- `slideChunks` never produces the empty chunk list. -/
theorem slideChunks_ne_nil (c step : Nat) (s : List Char) :
    slideChunks c step s ≠ [] :=
  slideChunksAux_ne_nil c step s.length s

/-- The first window of a text starts with the same `o ≤ c` characters
as the text itself. -/
theorem slideChunksAux_head_take (c o step fuel : Nat) (ho : o ≤ c)
    (s : List Char) (hd : List Char)
    (hhd : (slideChunksAux c step fuel s).head? = some hd) :
    hd.take o = s.take o := by
  cases fuel with
  | zero =>
      simp [slideChunksAux] at hhd
      subst hhd; rfl
  | succ n =>
      simp only [slideChunksAux] at hhd
      split at hhd
      · simp at hhd; subst hhd; rfl
      · simp at hhd
        subst hhd
        rw [List.take_take, Nat.min_eq_left ho]

/-- Every document yields at least one chunk. -/
theorem splitDoc_ne_nil (c o : Nat) (d : Doc) : splitDoc c o d ≠ [] := by
  unfold splitDoc
  intro h
  exact slideChunks_ne_nil c (c - o) d.pageContent.toList
    (List.map_eq_nil_iff.mp h)

/-- When every element is mapped to a non-empty list, `flatMap` has at
least one output element per input element. -/
theorem length_le_length_flatMap {α β : Type} (f : α → List β)
    (hf : ∀ x, f x ≠ []) (l : List α) :
    l.length ≤ (l.flatMap f).length := by
  induction l with
  | nil => simp
  | cons a l ih =>
      simp only [List.flatMap_cons, List.length_append, List.length_cons]
      have h1 : 0 < (f a).length := List.length_pos.mpr (hf a)
      omega

/-- A text longer than the window size yields at least two windows. -/
theorem slideChunks_two_le_length (c o : Nat) (ho : o < c)
    (s : List Char) (hs : c < s.length) :
    2 ≤ (slideChunks c (c - o) s).length := by
  unfold slideChunks
  rcases hL : s.length with _ | n
  · omega
  · simp only [slideChunksAux]
    rw [if_neg (by omega)]
    have h1 : 0 < (slideChunksAux c (c - o) n (s.drop (c - o))).length :=
      List.length_pos.mpr (slideChunksAux_ne_nil c (c - o) n _)
    simp only [List.length_cons]
    omega

/-- The exact-overlap relation between adjacent windows: a window with a
successor is full (length `c`) and its last `o` characters are the first
`o` characters of the successor. -/
def chunkOverlapRel (c o : Nat) (a b : List Char) : Prop :=
  a.length = c ∧ a.drop (c - o) = b.take o

/-- Adjacent windows of a text overlap by exactly `o` characters. -/
theorem slideChunksAux_chain (c o : Nat) (ho : o < c) (fuel : Nat) :
    ∀ s : List Char,
      List.Chain' (chunkOverlapRel c o) (slideChunksAux c (c - o) fuel s) := by
  induction fuel with
  | zero => intro s; simp [slideChunksAux]
  | succ n ih =>
      intro s
      simp only [slideChunksAux]
      split
      · exact List.chain'_singleton s
      · rename_i hcond
        push_neg at hcond
        refine List.chain'_cons'.mpr ⟨?_, ih (s.drop (c - o))⟩
        intro y hy
        have hyt : y.take o = (s.drop (c - o)).take o :=
          slideChunksAux_head_take c o (c - o) n (le_of_lt ho) _ y hy
        constructor
        · rw [List.length_take]
          omega
        · rw [hyt, List.drop_take]
          congr 1
          omega

/-! ### Claim theorems -/

/-- Claim C1: for every source directory with no loadable documents
(empty, or only unsupported file types), the build pipeline returns after
the No-documents-found report and performs no filesystem effect at the
vector-store path: nothing is created, written, or deleted there. -/
theorem build_unsupported_reports_and_touches_nothing
    (pdfLoad textLoad : String → Except String (List Doc))
    (files : List String) (storeExists : Bool)
    (h : ∀ name ∈ files, supportedExt name = false) :
    build_knowledge_base pdfLoad textLoad (some files) storeExists =
      (BuildReport.noDocuments, []) := by
  have hd := load_all_unsupported pdfLoad textLoad files h
  simp [build_knowledge_base, hd]

/-- Witness for C1: a directory holding only a .docx and a .png file. -/
theorem build_unsupported_reports_and_touches_nothing_witness :
    (∀ name ∈ ["notes.docx", "image.png"], supportedExt name = false) ∧
    build_knowledge_base (fun _ => Except.ok []) (fun _ => Except.ok [])
        (some ["notes.docx", "image.png"]) true =
      (BuildReport.noDocuments, []) :=
  ⟨by decide,
   build_unsupported_reports_and_touches_nothing _ _ _ _ (by decide)⟩

/-- Claim C3: per-call failures during a user turn are caught at the
call boundary and converted without retry — a failing single-text
embedding call yields the empty list, a failing generation call yields
the fixed error string, and a similarity search on an uninitialised
database yields the empty list; each function returns normally, so the
loop continues with the next turn. -/
theorem per_call_failures_converted
    (embedQuery : String → Except String (List Rat)) (text e1 : String)
    (invoke : List ChatMessage → Except String String)
    (prompt : String) (sysMsg : Option String) (e2 : String)
    (searchFn : Store → String → Nat → List Doc)
    (vdb : VectorDatabase) (q : String) (k : Nat)
    (h1 : embedQuery text = Except.error e1)
    (h2 : invoke (buildMessages prompt sysMsg) = Except.error e2)
    (h3 : vdb.db = none) :
    create_embedding embedQuery text = [] ∧
    generate_response invoke prompt sysMsg =
      "An error occurred while generating the response." ∧
    similarity_search searchFn vdb q k = [] := by
  refine ⟨?_, ?_, ?_⟩
  · simp [create_embedding, h1]
  · simp [generate_response, h2]
  · simp [similarity_search, h3]

/-- Witness for C3: a down model-serving daemon and a never-initialised
database. -/
theorem per_call_failures_converted_witness :
    create_embedding (fun _ => Except.error "connection refused") "hello" = [] ∧
    generate_response (fun _ => Except.error "connection refused") "hi" none =
      "An error occurred while generating the response." ∧
    similarity_search (fun st _ k => st.records.take k)
      { db := none, persisted := none } "q" 4 = [] :=
  per_call_failures_converted (fun _ => Except.error "connection refused")
    "hello" "connection refused" (fun _ => Except.error "connection refused")
    "hi" none "connection refused" (fun st _ k => st.records.take k)
    { db := none, persisted := none } "q" 4 rfl rfl rfl

/-- Claim C6: retrieval is a deterministic function of the question, the
store contents and `k` — two invocations against stores with identical
contents return identical result sets, whatever the rest of the wrapper
state is. -/
theorem retrieval_deterministic_in_store_contents
    (searchFn : Store → String → Nat → List Doc)
    (vdb vdb' : VectorDatabase) (q : String) (k : Nat)
    (h : vdb.db = vdb'.db) :
    similarity_search searchFn vdb q k = similarity_search searchFn vdb' q k := by
  simp [similarity_search, h]

/-- Witness for C6: two wrapper states sharing the same collection but
differing in persisted-path state. -/
theorem retrieval_deterministic_in_store_contents_witness :
    ({ db := some { records := [{ pageContent := "DNA", source := "a.txt" }] },
       persisted := none } : VectorDatabase).db =
      ({ db := some { records := [{ pageContent := "DNA", source := "a.txt" }] },
         persisted := some { records := [] } } : VectorDatabase).db ∧
    similarity_search (fun st _ k => st.records.take k)
        { db := some { records := [{ pageContent := "DNA", source := "a.txt" }] },
          persisted := none } "what is DNA" 4 =
      similarity_search (fun st _ k => st.records.take k)
        { db := some { records := [{ pageContent := "DNA", source := "a.txt" }] },
          persisted := some { records := [] } } "what is DNA" 4 :=
  ⟨rfl, retrieval_deterministic_in_store_contents _ _ _ _ _ rfl⟩

/-- Claim C7: when the persisted vector-store directory is missing or
empty at CLI startup, `main` detects it before constructing the agent,
prints the blocking warning block, and exits with a non-zero status. -/
theorem startup_blocks_on_missing_kb (chromaDir : Option (List String))
    (agentInit : Except String Unit)
    (h : chromaDir = none ∨ chromaDir = some []) :
    (mainStartup chromaDir agentInit).agentConstructed = false ∧
    (mainStartup chromaDir agentInit).printed = kbWarningLines ∧
    (mainStartup chromaDir agentInit).printed ≠ [] ∧
    ∃ code, (mainStartup chromaDir agentInit).exitCode = some code ∧
      code ≠ 0 := by
  rcases h with h | h <;> subst h <;>
    simp [mainStartup, ensure_knowledge_base_exists, kbWarningLines]

/-- Witness for C7: a store directory that exists but is empty, with an
agent constructor that would have succeeded. -/
theorem startup_blocks_on_missing_kb_witness :
    ((some ([] : List String)) = none ∨ (some ([] : List String)) = some []) ∧
    ((mainStartup (some []) (Except.ok ())).agentConstructed = false ∧
     (mainStartup (some []) (Except.ok ())).printed = kbWarningLines ∧
     (mainStartup (some []) (Except.ok ())).printed ≠ [] ∧
     ∃ code, (mainStartup (some []) (Except.ok ())).exitCode = some code ∧
       code ≠ 0) :=
  ⟨Or.inr rfl, startup_blocks_on_missing_kb (some []) (Except.ok ()) (Or.inr rfl)⟩

/-- Claim C8: during the walk, a file is handed to a loader if and only
if its name ends in .pdf or in one of .txt, .md, .py, .R, .sh; any other
file takes the skip branch — a logged notice, no error, and no output
document. -/
theorem loader_extension_dispatch
    (pdfLoad textLoad : String → Except String (List Doc)) (name : String) :
    (supportedExt name = false →
      processFile pdfLoad textLoad name =
        ([], ["Skipping unsupported file type: " ++ name])) ∧
    (pyEndsWith name ".pdf" = true →
      processFile pdfLoad textLoad name =
        loadOutcome "Loaded PDF: " "Error loading PDF " name (pdfLoad name)) ∧
    (pyEndsWith name ".pdf" = false → supportedTextExt name = true →
      processFile pdfLoad textLoad name =
        loadOutcome "Loaded Text/Code: " "Error loading text/code file " name
          (textLoad name)) ∧
    ((processFile pdfLoad textLoad name).1 ≠ [] → supportedExt name = true) := by
  refine ⟨?_, ?_, ?_, ?_⟩
  · exact processFile_unsupported pdfLoad textLoad name
  · intro hp; simp [processFile, hp]
  · intro hp ht; simp [processFile, hp, ht]
  · intro hne
    by_contra hsup
    rw [processFile_unsupported pdfLoad textLoad name
      (Bool.not_eq_true _ ▸ Bool.of_not_eq_true hsup)] at hne
    exact hne rfl

/-- Witness for C8: a .docx file is skipped with the notice and yields no
documents, even when both loaders would have succeeded. -/
theorem loader_extension_dispatch_witness :
    supportedExt "report.docx" = false ∧
    processFile (fun _ => Except.ok [{ pageContent := "p", source := "s" }])
        (fun _ => Except.ok [{ pageContent := "t", source := "s" }])
        "report.docx" =
      ([], ["Skipping unsupported file type: report.docx"]) :=
  ⟨by decide,
   (loader_extension_dispatch _ _ "report.docx").1 (by decide)⟩

/-- Claim C9: when the batch embedding call raises, `create_embeddings`
returns one empty vector per input text, preserving the input length for
positional indexing. -/
theorem create_embeddings_error_positional
    (embedDocuments : List String → Except String (List (List Rat)))
    (texts : List String) (e : String)
    (_hne : texts ≠ [])
    (herr : embedDocuments texts = Except.error e) :
    (create_embeddings embedDocuments texts).length = texts.length ∧
    ∀ v ∈ create_embeddings embedDocuments texts, v = ([] : List Rat) := by
  constructor
  · simp [create_embeddings, herr]
  · intro v hv
    simp [create_embeddings, herr] at hv
    exact hv.2

/-- Witness for C9: a failing batch call over two texts. -/
theorem create_embeddings_error_positional_witness :
    (["alpha", "beta"] : List String) ≠ [] ∧
    ((fun _ : List String =>
        (Except.error "model not pulled" : Except String (List (List Rat))))
      ["alpha", "beta"] = Except.error "model not pulled") ∧
    ((create_embeddings (fun _ => Except.error "model not pulled")
        ["alpha", "beta"]).length = (["alpha", "beta"] : List String).length ∧
     ∀ v ∈ create_embeddings (fun _ => Except.error "model not pulled")
        ["alpha", "beta"], v = ([] : List Rat)) :=
  ⟨by decide, rfl,
   create_embeddings_error_positional _ _ "model not pulled" (by decide) rfl⟩

/-- Claim C10: `add_documents` with an empty list leaves both the
in-memory handle and the persisted contents unchanged, and on an
uninitialised database it delegates to `initialize_db` with the given
documents (creating and persisting a collection from them) instead of
raising. -/
theorem add_documents_empty_noop_and_delegation
    (vdb : VectorDatabase) (docs : List Doc)
    (hdb : vdb.db = none) (hne : docs ≠ []) :
    add_documents [] vdb = vdb ∧
    add_documents docs vdb = initialize_db (some docs) vdb ∧
    (add_documents docs vdb).db =
      some (chromaFromDocuments vdb.persisted docs) ∧
    (add_documents docs vdb).persisted =
      some (chromaFromDocuments vdb.persisted docs) := by
  have hie : docs.isEmpty = false := by
    cases docs with
    | nil => exact absurd rfl hne
    | cons a l => rfl
  refine ⟨by simp [add_documents], ?_, ?_, ?_⟩ <;>
    simp [add_documents, initialize_db, hie, hdb]

/-- Witness for C10: an uninitialised handle over a non-empty persisted
directory, extended with one new document. -/
theorem add_documents_empty_noop_and_delegation_witness :
    ({ db := none, persisted := some { records := [{ pageContent := "old", source := "a.txt" }] } } :
        VectorDatabase).db = none ∧
    ([{ pageContent := "new", source := "b.txt" }] : List Doc) ≠ [] ∧
    (add_documents []
        { db := none,
          persisted := some { records := [{ pageContent := "old", source := "a.txt" }] } } =
      { db := none,
        persisted := some { records := [{ pageContent := "old", source := "a.txt" }] } } ∧
     add_documents [{ pageContent := "new", source := "b.txt" }]
        { db := none,
          persisted := some { records := [{ pageContent := "old", source := "a.txt" }] } } =
      initialize_db (some [{ pageContent := "new", source := "b.txt" }])
        { db := none,
          persisted := some { records := [{ pageContent := "old", source := "a.txt" }] } } ∧
     (add_documents [{ pageContent := "new", source := "b.txt" }]
        { db := none,
          persisted := some { records := [{ pageContent := "old", source := "a.txt" }] } }).db =
      some (chromaFromDocuments
        (some { records := [{ pageContent := "old", source := "a.txt" }] })
        [{ pageContent := "new", source := "b.txt" }]) ∧
     (add_documents [{ pageContent := "new", source := "b.txt" }]
        { db := none,
          persisted := some { records := [{ pageContent := "old", source := "a.txt" }] } }).persisted =
      some (chromaFromDocuments
        (some { records := [{ pageContent := "old", source := "a.txt" }] })
        [{ pageContent := "new", source := "b.txt" }])) :=
  ⟨rfl, by decide,
   add_documents_empty_noop_and_delegation _ _ rfl (by decide)⟩

/-- The normal form of a build run that reaches the write step: success
report, optional deletion of the old store first, then directory
creation, then the write of the new collection. -/
theorem build_reaches_write
    (pdfLoad textLoad : String → Except String (List Doc))
    (dataDir : Option (List String)) (storeExists : Bool)
    (hdocs : (load_documents_from_directory pdfLoad textLoad dataDir).1 ≠ [])
    (hchunks : split_documents CHUNK_SIZE CHUNK_OVERLAP
        (load_documents_from_directory pdfLoad textLoad dataDir).1 ≠ []) :
    build_knowledge_base pdfLoad textLoad dataDir storeExists =
      (BuildReport.success,
        (if storeExists then [FSEffect.rmtreeStore] else []) ++
          [FSEffect.makedirsStore,
           FSEffect.writeStore (split_documents CHUNK_SIZE CHUNK_OVERLAP
             (load_documents_from_directory pdfLoad textLoad dataDir).1)]) := by
  have h1 : ((load_documents_from_directory pdfLoad textLoad dataDir).1).isEmpty
      = false := by
    cases hh : (load_documents_from_directory pdfLoad textLoad dataDir).1 with
    | nil => exact absurd hh hdocs
    | cons a l => rfl
  have h2 : (split_documents CHUNK_SIZE CHUNK_OVERLAP
      (load_documents_from_directory pdfLoad textLoad dataDir).1).isEmpty
      = false := by
    cases hh : split_documents CHUNK_SIZE CHUNK_OVERLAP
        (load_documents_from_directory pdfLoad textLoad dataDir).1 with
    | nil => exact absurd hh hchunks
    | cons a l => rfl
  simp [build_knowledge_base, h1, h2]

/-- Claim C2: every build run that reaches the write step deletes any
existing persisted store at the target path before the new store is
written — the deletion is the first effect when a store exists, every
write of the new store comes strictly after it, and the run ends by
writing the new (non-empty) store; no deletion happens when no store
exists. -/
theorem build_deletes_old_store_before_write
    (pdfLoad textLoad : String → Except String (List Doc))
    (dataDir : Option (List String)) (storeExists : Bool)
    (hdocs : (load_documents_from_directory pdfLoad textLoad dataDir).1 ≠ [])
    (hchunks : split_documents CHUNK_SIZE CHUNK_OVERLAP
        (load_documents_from_directory pdfLoad textLoad dataDir).1 ≠ []) :
    (∃ chunks, chunks ≠ [] ∧
      ((build_knowledge_base pdfLoad textLoad dataDir storeExists).2).getLast? =
        some (FSEffect.writeStore chunks)) ∧
    (storeExists = true →
      ((build_knowledge_base pdfLoad textLoad dataDir storeExists).2).head? =
        some FSEffect.rmtreeStore ∧
      ∀ i chs,
        ((build_knowledge_base pdfLoad textLoad dataDir storeExists).2).get? i =
          some (FSEffect.writeStore chs) →
        ((build_knowledge_base pdfLoad textLoad dataDir storeExists).2).get? 0 =
          some FSEffect.rmtreeStore ∧ 0 < i) ∧
    (storeExists = false →
      FSEffect.rmtreeStore ∉
        (build_knowledge_base pdfLoad textLoad dataDir storeExists).2) := by
  rw [build_reaches_write pdfLoad textLoad dataDir storeExists hdocs hchunks]
  cases storeExists with
  | true =>
      refine ⟨⟨_, hchunks, rfl⟩, ?_, by simp⟩
      intro _
      refine ⟨rfl, ?_⟩
      intro i chs hi
      match i with
      | 0 => simp [List.get?] at hi
      | 1 => simp [List.get?] at hi
      | 2 => exact ⟨rfl, by omega⟩
      | (n + 3) => simp [List.get?] at hi
  | false =>
      refine ⟨⟨_, hchunks, rfl⟩, by simp, ?_⟩
      intro _
      simp

/-- Witness for C2: one loadable text file and an existing store; the
build deletes the old store first and writes the new one last. -/
theorem build_deletes_old_store_before_write_witness :
    ((load_documents_from_directory (fun _ => Except.ok [])
        (fun _ => Except.ok [{ pageContent := "hello world", source := "a.txt" }])
        (some ["a.txt"])).1 ≠ []) ∧
    (split_documents CHUNK_SIZE CHUNK_OVERLAP
        (load_documents_from_directory (fun _ => Except.ok [])
          (fun _ => Except.ok [{ pageContent := "hello world", source := "a.txt" }])
          (some ["a.txt"])).1 ≠ []) ∧
    ((∃ chunks, chunks ≠ [] ∧
      ((build_knowledge_base (fun _ => Except.ok [])
          (fun _ => Except.ok [{ pageContent := "hello world", source := "a.txt" }])
          (some ["a.txt"]) true).2).getLast? =
        some (FSEffect.writeStore chunks)) ∧
    (true = true →
      ((build_knowledge_base (fun _ => Except.ok [])
          (fun _ => Except.ok [{ pageContent := "hello world", source := "a.txt" }])
          (some ["a.txt"]) true).2).head? = some FSEffect.rmtreeStore ∧
      ∀ i chs,
        ((build_knowledge_base (fun _ => Except.ok [])
            (fun _ => Except.ok [{ pageContent := "hello world", source := "a.txt" }])
            (some ["a.txt"]) true).2).get? i =
          some (FSEffect.writeStore chs) →
        ((build_knowledge_base (fun _ => Except.ok [])
            (fun _ => Except.ok [{ pageContent := "hello world", source := "a.txt" }])
            (some ["a.txt"]) true).2).get? 0 =
          some FSEffect.rmtreeStore ∧ 0 < i) ∧
    (true = false →
      FSEffect.rmtreeStore ∉
        (build_knowledge_base (fun _ => Except.ok [])
          (fun _ => Except.ok [{ pageContent := "hello world", source := "a.txt" }])
          (some ["a.txt"]) true).2)) :=
  ⟨by decide, by decide,
   build_deletes_old_store_before_write _ _ _ _ (by decide) (by decide)⟩

/-- Claim C4: whenever the combined character length of the input
documents exceeds the chunk size, `split_documents` produces more than
one chunk, and each pair of adjacent chunks from the same source
overlaps by exactly the configured overlap length (the preceding chunk
is full and its last `o` characters are the first `o` characters of its
successor). -/
theorem chunker_multiplies_and_overlaps (c o : Nat) (docs : List Doc)
    (ho : o < c) (htotal : c < totalChars docs) :
    1 < (split_documents c o docs).length ∧
    ∀ d ∈ docs, List.Chain'
      (fun a b : Doc => a.pageContent.toList.length = c ∧
        a.pageContent.toList.drop (c - o) = b.pageContent.toList.take o)
      (splitDoc c o d) := by
  constructor
  · match docs, htotal with
    | [], ht => exact absurd ht (by simp [totalChars])
    | [d], ht =>
        have hd : c < d.pageContent.toList.length := by
          simpa [totalChars] using ht
        have h2 := slideChunks_two_le_length c o ho _ hd
        have h3 : split_documents c o [d] = splitDoc c o d := by
          simp [split_documents]
        have h4 : (splitDoc c o d).length =
            (slideChunks c (c - o) d.pageContent.toList).length := by
          simp [splitDoc]
        rw [h3]
        omega
    | d1 :: d2 :: rest, ht =>
        have hge := length_le_length_flatMap (splitDoc c o)
          (splitDoc_ne_nil c o) (d1 :: d2 :: rest)
        have heq : split_documents c o (d1 :: d2 :: rest) =
            (d1 :: d2 :: rest).flatMap (splitDoc c o) := by
          simp [split_documents]
        rw [heq]
        simp only [List.length_cons] at hge
        omega
  · intro d _
    have hchain := slideChunksAux_chain c o ho d.pageContent.toList.length
      d.pageContent.toList
    unfold splitDoc slideChunks
    rw [List.chain'_map]
    refine List.Chain'.imp ?_ hchain
    intro a b hab
    exact ⟨hab.1, hab.2⟩

/-- Witness for C4: one 8-character document split with chunk size 5 and
overlap 2. -/
theorem chunker_multiplies_and_overlaps_witness :
    2 < 5 ∧
    5 < totalChars [{ pageContent := "abcdefgh", source := "notes.txt" }] ∧
    (1 < (split_documents 5 2
        [{ pageContent := "abcdefgh", source := "notes.txt" }]).length ∧
     ∀ d ∈ [({ pageContent := "abcdefgh", source := "notes.txt" } : Doc)],
       List.Chain'
         (fun a b : Doc => a.pageContent.toList.length = 5 ∧
           a.pageContent.toList.drop (5 - 2) = b.pageContent.toList.take 2)
         (splitDoc 5 2 d)) :=
  ⟨by decide, by decide,
   chunker_multiplies_and_overlaps 5 2 _ (by decide) (by decide)⟩

/-- Claim C5: under the strict context policy, the agent sends the
strictly-instructed prompt for the retrieved context, so for every
question unsupported by any retrieved chunk, a generation model that
complies with the strict instruction makes `answer(question)` indicate
inability to answer rather than fabricate one. -/
theorem strict_policy_reports_inability
    (generate : String → Option String → String)
    (retrieve : String → List Doc)
    (supports : List Doc → String → Prop)
    (indicatesInability : String → Prop)
    (hcomp : StrictCompliant generate supports indicatesInability)
    (question : String)
    (hunsup : ¬ supports (retrieve question) question) :
    indicatesInability
      (agentAnswer generate retrieve ContextMode.strict question) := by
  have h := hcomp (retrieve question) question hunsup
  simpa [agentAnswer] using h

/-- Witness for C5: a compliant model that answers the strict prompt
with a fixed inability response, retrieval returning no supporting
chunk. -/
theorem strict_policy_reports_inability_witness :
    StrictCompliant (fun _ _ => "I do not know") (fun _ _ => False)
      (fun r => r = "I do not know") ∧
    ¬ (fun (_ : List Doc) (_ : String) => False)
        ((fun _ : String => ([] : List Doc)) "What is DNA replication?")
        "What is DNA replication?" ∧
    agentAnswer (fun _ _ => "I do not know") (fun _ => [])
        ContextMode.strict "What is DNA replication?" = "I do not know" :=
  ⟨fun _ _ _ => rfl, fun h => h,
   strict_policy_reports_inability (fun _ _ => "I do not know")
     (fun _ => []) (fun _ _ => False) (fun r => r = "I do not know")
     (fun _ _ _ => rfl) "What is DNA replication?" (fun h => h)⟩
